import Mathlib

/-!
Verification of the Cairo AIR orchestration layer
(`stwo_cairo_prover/crates/prover/src/cairo_air/mod.rs`).

The development shallowly embeds the orchestration code: claim aggregation
(`CairoClaim.mix_into` / `CairoClaim.log_sizes`), the logup consistency check
(`lookup_sum_valid`), the component set builder (`CairoComponents.new`), and
the prove/verify pipelines (`prove_cairo` / `verify_cairo`).

External collaborators (the extension-field arithmetic, the Fiat-Shamir
channel, the commitment scheme, the STARK engine, and the per-sub-component
claim types living in other crates/files of the repository) are modelled from
the specification; each such definition carries a doc comment saying so.
Rust panics (out-of-bounds indexing) are modelled by `Option`, with `none`
standing for a panic.
-/

/-! ## The fields M31, CM31, QM31

Modelled from the spec: the base field and its extension are supplied by the
external field-arithmetic crate.  `M31` is the Mersenne prime field used by
stwo, `CM31 = M31[i]` with `i ^ 2 = -1`, and the soundness-amplification
extension (`SecureField` / `QM31`) is `CM31[u]` with `u ^ 2 = 2 + i`. -/

abbrev M31 : Type := ZMod 2147483647

/-- Modelled from the spec: the degree-2 extension `M31[i]`. -/
structure CM31 where
  re : M31
  im : M31
deriving DecidableEq

def CM31.equivProd : CM31 ≃ M31 × M31 where
  toFun c := (c.re, c.im)
  invFun p := ⟨p.1, p.2⟩
  left_inv c := rfl
  right_inv p := rfl

instance : AddCommGroup CM31 := CM31.equivProd.addCommGroup

instance : Mul CM31 :=
  ⟨fun a b => ⟨a.re * b.re - a.im * b.im, a.re * b.im + a.im * b.re⟩⟩

instance : One CM31 := ⟨⟨1, 0⟩⟩

/-- Modelled from the spec: multiplicative inverse on `M31`, by Fermat
exponentiation; total, with `0` mapped to `0`. -/
def M31.finv (x : M31) : M31 := x ^ (2147483645 : ℕ)

/-- Modelled from the spec: multiplicative inverse on `CM31` (conjugate over
norm); total, with `0` mapped to `0`. -/
def CM31.finv (c : CM31) : CM31 :=
  let n : M31 := c.re * c.re + c.im * c.im
  ⟨c.re * n.finv, -(c.im * n.finv)⟩

/-- Modelled from the spec: the secure extension field `QM31 = CM31[u]`,
`u ^ 2 = 2 + i`.  This is the field in which claimed lookup sums live. -/
structure QM31 where
  c0 : CM31
  c1 : CM31
deriving DecidableEq

def QM31.equivProd : QM31 ≃ CM31 × CM31 where
  toFun q := (q.c0, q.c1)
  invFun p := ⟨p.1, p.2⟩
  left_inv q := rfl
  right_inv p := rfl

instance : AddCommGroup QM31 := QM31.equivProd.addCommGroup

/-- The relation `u ^ 2 = 2 + i` in `QM31 = CM31[u]`. -/
def QM31.R : CM31 := ⟨2, 1⟩

instance : Mul QM31 :=
  ⟨fun a b => ⟨a.c0 * b.c0 + QM31.R * (a.c1 * b.c1), a.c0 * b.c1 + a.c1 * b.c0⟩⟩

instance : One QM31 := ⟨⟨1, 0⟩⟩

/-- Modelled from the spec: multiplicative inverse on `QM31`; total, with `0`
mapped to `0`. -/
def QM31.finv (x : QM31) : QM31 :=
  let d : CM31 := (x.c0 * x.c0 - QM31.R * (x.c1 * x.c1)).finv
  ⟨x.c0 * d, -(x.c1 * d)⟩

/-- Embedding of a base-field element into the secure field. -/
def M31.toQM31 (x : M31) : QM31 := ⟨⟨x, 0⟩, 0⟩

/-- The four `M31` coordinates of a `QM31`, used when the value is absorbed
into the channel. -/
def QM31.coords (x : QM31) : List Nat :=
  [x.c0.re.val, x.c0.im.val, x.c1.re.val, x.c1.im.val]

/-! ## The Fiat-Shamir channel

Modelled from the spec: any conforming hash-based transcript is
substitutable, so the channel state is modelled as the sequence of absorbed
messages together with a draw counter, and drawing is a deterministic
function of the state. -/

inductive ChannelMsg where
  | felts (xs : List Nat)
  | digest (d : Nat)
deriving DecidableEq

structure Channel where
  absorbed : List ChannelMsg
  nDraws : Nat
deriving DecidableEq

/-- The default (initial) channel state, `Blake2sChannel::default()`. -/
def Channel.default : Channel := ⟨[], 0⟩

def Channel.mixFelts (ch : Channel) (xs : List Nat) : Channel :=
  ⟨ch.absorbed ++ [ChannelMsg.felts xs], ch.nDraws⟩

def Channel.mixDigest (ch : Channel) (d : Nat) : Channel :=
  ⟨ch.absorbed ++ [ChannelMsg.digest d], ch.nDraws⟩

/-- Modelled from the spec: a deterministic digest of one absorbed message. -/
def ChannelMsg.enc : ChannelMsg → Nat
  | .felts xs => xs.foldl (fun h x => h * 1000003 + x + 1) 7
  | .digest d => d * 2 + 1

/-- Modelled from the spec: a deterministic digest of the channel state,
"repeated deterministic expansion of the transcript's current digest". -/
def Channel.digestNat (ch : Channel) : Nat :=
  (ch.absorbed.map ChannelMsg.enc).foldl (fun h x => h * 1000033 + x + 3) 11
    + 1000003 * ch.nDraws

/-- Draw one secure-field element, advancing the channel state. -/
def Channel.drawQM31 (ch : Channel) : QM31 × Channel :=
  let d := ch.digestNat
  (⟨⟨(d : M31), ((d + 1 : Nat) : M31)⟩, ⟨((d + 2 : Nat) : M31), ((d + 3 : Nat) : M31)⟩⟩,
    { ch with nDraws := ch.nDraws + 1 })

/-! ## Lookup relation elements

Modelled from the spec: one opaque relation-element set per lookup relation,
used to combine a tuple of base-field values into a single secure-field
element (`z` and powers of `alpha`, as in stwo's `LookupElements`). -/

structure LookupElements where
  z : QM31
  alpha : QM31
deriving DecidableEq

/-- Combine a tuple of base-field values:
`combine(v) = (Σᵢ alphaⁱ · vᵢ) - z`. -/
def LookupElements.combine (e : LookupElements) (vs : List M31) : QM31 :=
  (vs.foldl (fun acc v => (acc.1 + acc.2 * M31.toQM31 v, acc.2 * e.alpha))
    ((0 : QM31), (1 : QM31))).1 - e.z

/-- Draw one relation-element set from the channel. -/
def LookupElements.draw (ch : Channel) : LookupElements × Channel :=
  let (z, ch) := ch.drawQM31
  let (alpha, ch) := ch.drawQM31
  (⟨z, alpha⟩, ch)

/-! ## TreeVec

The source's `TreeVec` holds per-commitment-tree data; this layer always
commits exactly three trees (base, interaction, constant), so it is modelled
with the three trees as fields; `[0]`, `[1]`, `[2]` in the source become the
three projections. -/

structure TreeVec (α : Type) where
  base : α
  interaction : α
  constant : α
deriving DecidableEq

/-- Transcription of `TreeVec::concat_cols`: concatenate per-tree column lists across
sub-components, preserving order. -/
def TreeVec.concat_cols (l : List (TreeVec (List Nat))) : TreeVec (List Nat) :=
  ⟨(l.map TreeVec.base).flatten, (l.map TreeVec.interaction).flatten,
    (l.map TreeVec.constant).flatten⟩

/-! ## Sub-component claims

Modelled from the spec: a sub-component claim is a "public record of a
sub-component's trace shape and public values"; its `mix_into` absorbs that
record into the channel and its `log_sizes` reports the column log-sizes per
commitment tree.  Each sub-component is modelled with one column per tree at
its log-size (internal column layouts are out of the spec's scope).  The
`range_check_9_9` table is a fixed 2^18-row table (two 9-bit limbs); its
claim carries no data and its reported log-size is the constant 18, matching
the `Eval::new` call in the source that takes no claim argument. -/

structure VmState where
  pc : Nat
  ap : Nat
  fp : Nat
deriving DecidableEq

structure ret_opcode.Claim where
  log_size : Nat
deriving DecidableEq

def ret_opcode.Claim.mix_into (c : ret_opcode.Claim) (ch : Channel) : Channel :=
  ch.mixFelts [c.log_size]

def ret_opcode.Claim.log_sizes (c : ret_opcode.Claim) : TreeVec (List Nat) :=
  ⟨[c.log_size], [c.log_size], [c.log_size]⟩

structure range_check_builtin.Claim where
  log_size : Nat
deriving DecidableEq

def range_check_builtin.Claim.mix_into (c : range_check_builtin.Claim) (ch : Channel) : Channel :=
  ch.mixFelts [c.log_size]

def range_check_builtin.Claim.log_sizes (c : range_check_builtin.Claim) : TreeVec (List Nat) :=
  ⟨[c.log_size], [c.log_size], [c.log_size]⟩

structure addr_to_id.Claim where
  log_size : Nat
deriving DecidableEq

def addr_to_id.Claim.mix_into (c : addr_to_id.Claim) (ch : Channel) : Channel :=
  ch.mixFelts [c.log_size]

def addr_to_id.Claim.log_sizes (c : addr_to_id.Claim) : TreeVec (List Nat) :=
  ⟨[c.log_size], [c.log_size], [c.log_size]⟩

structure id_to_f252.Claim where
  log_size : Nat
deriving DecidableEq

def id_to_f252.Claim.mix_into (c : id_to_f252.Claim) (ch : Channel) : Channel :=
  ch.mixFelts [c.log_size]

def id_to_f252.Claim.log_sizes (c : id_to_f252.Claim) : TreeVec (List Nat) :=
  ⟨[c.log_size], [c.log_size], [c.log_size]⟩

structure range_check_9_9.Claim where
deriving DecidableEq

def range_check_9_9.Claim.log_sizes (_ : range_check_9_9.Claim) : TreeVec (List Nat) :=
  ⟨[18], [18], [18]⟩

/-! ## The aggregated claim (`CairoClaim`) -/

/-- Transcription of `CairoClaim` from the source: public inputs (public memory entries as
`(address, 8 x u32 limbs)`, the boundary VM states) plus one claim per wired
sub-component (a list for `ret`, which may have several instances). -/
structure CairoClaim where
  public_memory : List (Nat × List Nat)
  initial_state : VmState
  final_state : VmState
  ret : List ret_opcode.Claim
  range_check_builtin : range_check_builtin.Claim
  memory_addr_to_id : addr_to_id.Claim
  memory_id_to_value : id_to_f252.Claim
  range_check9_9 : range_check_9_9.Claim
deriving DecidableEq

/-- Transcription of `CairoClaim::mix_into`, transcribed from the source: absorbs the `ret`
claims, then `range_check_builtin`, `memory_addr_to_id`,
`memory_id_to_value`.  Neither the public-input fields nor `range_check9_9`
are absorbed (the source carries a TODO about the common values). -/
def CairoClaim.mix_into (c : CairoClaim) (ch : Channel) : Channel :=
  let ch := c.ret.foldl (fun ch rc => rc.mix_into ch) ch
  let ch := c.range_check_builtin.mix_into ch
  let ch := c.memory_addr_to_id.mix_into ch
  c.memory_id_to_value.mix_into ch

/-- Transcription of `CairoClaim::log_sizes`, transcribed from the source: concatenates the
column log-sizes of the `ret` claims, `range_check_builtin`,
`memory_addr_to_id`, `memory_id_to_value` and `range_check9_9`, per tree. -/
def CairoClaim.log_sizes (c : CairoClaim) : TreeVec (List Nat) :=
  TreeVec.concat_cols
    (c.ret.map ret_opcode.Claim.log_sizes ++
      [c.range_check_builtin.log_sizes, c.memory_addr_to_id.log_sizes,
        c.memory_id_to_value.log_sizes, c.range_check9_9.log_sizes])

/-! ## Interaction claims -/

/-- Modelled from the spec: a per-sub-component record of the claimed lookup
sum in the secure field. -/
structure ret_opcode.InteractionClaim where
  claimed_sum : QM31
deriving DecidableEq

def ret_opcode.InteractionClaim.mix_into (c : ret_opcode.InteractionClaim) (ch : Channel) :
    Channel :=
  ch.mixFelts c.claimed_sum.coords

structure range_check_builtin.InteractionClaim where
  claimed_sum : QM31
deriving DecidableEq

def range_check_builtin.InteractionClaim.mix_into (c : range_check_builtin.InteractionClaim)
    (ch : Channel) : Channel :=
  ch.mixFelts c.claimed_sum.coords

structure addr_to_id.InteractionClaim where
  claimed_sum : QM31
deriving DecidableEq

def addr_to_id.InteractionClaim.mix_into (c : addr_to_id.InteractionClaim) (ch : Channel) :
    Channel :=
  ch.mixFelts c.claimed_sum.coords

structure id_to_f252.InteractionClaim where
  claimed_sum : QM31
deriving DecidableEq

def id_to_f252.InteractionClaim.mix_into (c : id_to_f252.InteractionClaim) (ch : Channel) :
    Channel :=
  ch.mixFelts c.claimed_sum.coords

structure range_check_9_9.InteractionClaim where
  claimed_sum : QM31
deriving DecidableEq

/-- Transcription of `CairoInteractionClaim` from the source. -/
structure CairoInteractionClaim where
  ret : List ret_opcode.InteractionClaim
  range_check_builtin : range_check_builtin.InteractionClaim
  memory_addr_to_id : addr_to_id.InteractionClaim
  memory_id_to_value : id_to_f252.InteractionClaim
  range_check9_9 : range_check_9_9.InteractionClaim
deriving DecidableEq

/-- Transcription of `CairoInteractionClaim::mix_into`, transcribed from the source: absorbs
the `ret`, `range_check_builtin`, `memory_addr_to_id` and
`memory_id_to_value` interaction claims (the source does not absorb
`range_check9_9`). -/
def CairoInteractionClaim.mix_into (c : CairoInteractionClaim) (ch : Channel) : Channel :=
  let ch := c.ret.foldl (fun ch rc => rc.mix_into ch) ch
  let ch := c.range_check_builtin.mix_into ch
  let ch := c.memory_addr_to_id.mix_into ch
  c.memory_id_to_value.mix_into ch

/-! ## Interaction elements -/

/-- Transcription of `CairoInteractionElements` from the source: one relation-element set per
lookup relation. -/
structure CairoInteractionElements where
  memory_addr_to_id_lookup : LookupElements
  memory_id_to_value_lookup : LookupElements
  range9_9_lookup : LookupElements
deriving DecidableEq

/-- Transcription of `CairoInteractionElements::draw`, transcribed from the source: draws the
three relation-element sets in the fixed order `memory_addr_to_id`,
`memory_id_to_value`, `range9_9`. -/
def CairoInteractionElements.draw (ch : Channel) : CairoInteractionElements × Channel :=
  let (a, ch) := LookupElements.draw ch
  let (b, ch) := LookupElements.draw ch
  let (c, ch) := LookupElements.draw ch
  (⟨a, b, c⟩, ch)

/-! ## The logup consistency check (`lookup_sum_valid`) -/

/-- The 252-bit value encoded by 8 little-endian `u32` limbs. -/
def limbsVal (limbs : List Nat) : Nat :=
  limbs.foldr (fun x acc => x + acc * 4294967296) 0

/-- Modelled from the spec: `split_f252` decomposes a 252-bit public-memory
value into 28 little-endian 9-bit limbs, each a base-field element (the
9-bit width is the one checked by the 9-bit range-check table). -/
def split_f252 (limbs : List Nat) : List M31 :=
  (List.range 28).map fun j => (((limbsVal limbs) >>> (9 * j)) % 512 : Nat)

/-- The public-memory contribution of `lookup_sum_valid`, transcribed from
the source: for each entry, combine `(address, value limbs)` under the
memory-value relation elements and take the multiplicative inverse. -/
def publicMemorySum (claim : CairoClaim) (elements : CairoInteractionElements) : QM31 :=
  (claim.public_memory.map fun av =>
    (elements.memory_id_to_value_lookup.combine (((av.1 : Nat) : M31) :: split_f252 av.2)).finv).sum

/-- The total accumulated by `lookup_sum_valid`, transcribed from the source:
public-memory inverses, then the claimed sums of `range_check9_9`, `ret[0]`,
`range_check_builtin`, `memory_addr_to_id`, `memory_id_to_value`.  The source
indexes `interaction_claim.ret[0]`, which panics (`none`) when the `ret` list
is empty, and ignores all further `ret` instances. -/
def lookup_sum (claim : CairoClaim) (elements : CairoInteractionElements)
    (interaction_claim : CairoInteractionClaim) : Option QM31 :=
  match interaction_claim.ret with
  | [] => none
  | r0 :: _ =>
    some (publicMemorySum claim elements
      + interaction_claim.range_check9_9.claimed_sum
      + r0.claimed_sum
      + interaction_claim.range_check_builtin.claimed_sum
      + interaction_claim.memory_addr_to_id.claimed_sum
      + interaction_claim.memory_id_to_value.claimed_sum)

/-- Transcription of `lookup_sum_valid`, transcribed from the source: the accumulated total
must equal zero in the secure field.  `none` models the panic on an empty
`ret` list. -/
def lookup_sum_valid (claim : CairoClaim) (elements : CairoInteractionElements)
    (interaction_claim : CairoInteractionClaim) : Option Bool :=
  (lookup_sum claim elements interaction_claim).map fun s => decide (s = 0)

/-! ## The component set builder (`CairoComponents`) -/

/-- Modelled from the spec: the shared trace-location allocator assigns
disjoint column ranges per commitment tree, in enumeration order.  The state
is the next free column index per tree. -/
structure TraceLocationAllocator where
  next : TreeVec Nat
deriving DecidableEq

def TraceLocationAllocator.default : TraceLocationAllocator := ⟨⟨0, 0, 0⟩⟩

/-- Allocate the column range of one component (one column per tree in this
model) and advance the allocator. -/
def TraceLocationAllocator.alloc (a : TraceLocationAllocator) :
    TreeVec Nat × TraceLocationAllocator :=
  (a.next, ⟨⟨a.next.base + 1, a.next.interaction + 1, a.next.constant + 1⟩⟩)

/-- Eval payload of `ret_opcode::Eval::new(claim, memory lookup elements, interaction claim)`. -/
structure ret_opcode.Eval where
  claim : ret_opcode.Claim
  memory_lookup : LookupElements
  interaction_claim : ret_opcode.InteractionClaim
deriving DecidableEq

/-- Eval payload of `range_check_builtin::Eval::new(claim, memory lookup elements, interaction claim)`. -/
structure range_check_builtin.Eval where
  claim : range_check_builtin.Claim
  memory_lookup : LookupElements
  interaction_claim : range_check_builtin.InteractionClaim
deriving DecidableEq

/-- Eval payload of `addr_to_id::Eval::new(claim, addr-to-id lookup elements, interaction claim)`. -/
structure addr_to_id.Eval where
  claim : addr_to_id.Claim
  lookup : LookupElements
  interaction_claim : addr_to_id.InteractionClaim
deriving DecidableEq

/-- Eval payload of `id_to_f252::Eval::new(claim, memory lookup, range9_9 lookup, interaction claim)`. -/
structure id_to_f252.Eval where
  claim : id_to_f252.Claim
  memory_lookup : LookupElements
  range9_9_lookup : LookupElements
  interaction_claim : id_to_f252.InteractionClaim
deriving DecidableEq

/-- Eval payload of `range_check_9_9::Eval::new(range9_9 lookup elements, claimed_sum)`. -/
structure range_check_9_9.Eval where
  lookup : LookupElements
  claimed_sum : QM31
deriving DecidableEq

/-- A component bound to its allocated trace location, the result of
`X::Component::new(tree_span_provider, eval)`. -/
structure Bound (E : Type) where
  loc : TreeVec Nat
  eval : E
deriving DecidableEq

/-- Transcription of `CairoComponents` from the source. -/
structure CairoComponents where
  ret : List (Bound ret_opcode.Eval)
  range_check_builtin : Bound range_check_builtin.Eval
  memory_addr_to_id : Bound addr_to_id.Eval
  memory_id_to_value : Bound id_to_f252.Eval
  range_check9_9 : Bound range_check_9_9.Eval
deriving DecidableEq

/-- Build the `ret` components: walk the zipped (claim, interaction claim)
pairs, threading the allocator, exactly as the source's
`zip(..).map(|..| Component::new(tree_span_provider, ..))`. -/
def allocRetComponents (lk : LookupElements)
    (pairs : List (ret_opcode.Claim × ret_opcode.InteractionClaim))
    (a : TraceLocationAllocator) :
    List (Bound ret_opcode.Eval) × TraceLocationAllocator :=
  match pairs with
  | [] => ([], a)
  | pr :: rest =>
    let (loc, a') := a.alloc
    let (comps, a'') := allocRetComponents lk rest a'
    (⟨loc, ⟨pr.1, lk, pr.2⟩⟩ :: comps, a'')

/-- Transcription of `CairoComponents::new`, transcribed from the source: a fresh default
allocator, the `ret` components over the zip of the claim's and the
interaction claim's `ret` lists, then `range_check_builtin`,
`memory_addr_to_id`, `memory_id_to_value`, `range_check9_9`, each built from
the displayed fields of the three inputs. -/
def CairoComponents.new (cairo_claim : CairoClaim)
    (interaction_elements : CairoInteractionElements)
    (interaction_claim : CairoInteractionClaim) : CairoComponents :=
  let a0 := TraceLocationAllocator.default
  let rp :=
    allocRetComponents interaction_elements.memory_id_to_value_lookup
      (cairo_claim.ret.zip interaction_claim.ret) a0
  let retComponents := rp.1
  let p1 := rp.2.alloc
  let l1 := p1.1
  let p2 := p1.2.alloc
  let l2 := p2.1
  let p3 := p2.2.alloc
  let l3 := p3.1
  let p4 := p3.2.alloc
  let l4 := p4.1
  { ret := retComponents
    range_check_builtin :=
      ⟨l1, ⟨cairo_claim.range_check_builtin,
        interaction_elements.memory_id_to_value_lookup,
        interaction_claim.range_check_builtin⟩⟩
    memory_addr_to_id :=
      ⟨l2, ⟨cairo_claim.memory_addr_to_id,
        interaction_elements.memory_addr_to_id_lookup,
        interaction_claim.memory_addr_to_id⟩⟩
    memory_id_to_value :=
      ⟨l3, ⟨cairo_claim.memory_id_to_value,
        interaction_elements.memory_id_to_value_lookup,
        interaction_elements.range9_9_lookup,
        interaction_claim.memory_id_to_value⟩⟩
    range_check9_9 :=
      ⟨l4, ⟨interaction_elements.range9_9_lookup,
        interaction_claim.range_check9_9.claimed_sum⟩⟩ }

/-! ## Proof objects and errors -/

/-- Modelled from the spec: the opaque STARK proof produced by the external
engine; this layer reads only its ordered commitment digests
(`stark_proof.commitments[0..2]`). -/
structure StarkProof where
  commitments : List Nat
  blob : Nat
deriving DecidableEq

/-- Transcription of `CairoProof` from the source. -/
structure CairoProof where
  claim : CairoClaim
  interaction_claim : CairoInteractionClaim
  stark_proof : StarkProof
deriving DecidableEq

/-- Modelled from the spec: an error of the external STARK verifying engine,
wrapped unchanged by this layer. -/
structure StarkError where
  code : Nat
deriving DecidableEq

/-- Transcription of `CairoVerificationError` from the source. -/
inductive CairoVerificationError where
  | InvalidLogupSum
  | Stark (e : StarkError)
deriving DecidableEq

/-- Modelled from the spec: an error of the external STARK proving engine. -/
structure ProvingError where
  code : Nat
deriving DecidableEq

/-! ## The verify pipeline -/

/-- Modelled from the spec: the external STARK verifying engine, a supplied
capability taking the verifiable component set, the channel state, and the
proof. -/
abbrev VerifyEngine : Type :=
  CairoComponents → Channel → StarkProof → Except StarkError Unit

/-- The tail of `verify_cairo` after a passing logup check, split out for
modular reasoning: absorb the interaction claim, then the interaction and
constant commitments, build the component set, and delegate to the engine,
wrapping its error in `Stark`. -/
def verifyAfterCheck (engine : VerifyEngine) (p : CairoProof)
    (interaction_elements : CairoInteractionElements) (ch : Channel) :
    Option (Except CairoVerificationError Unit) :=
  let ch := p.interaction_claim.mix_into ch
  match p.stark_proof.commitments[1]? with
  | none => none
  | some d1 =>
    let ch := ch.mixDigest d1
    match p.stark_proof.commitments[2]? with
    | none => none
    | some d2 =>
      let ch := ch.mixDigest d2
      let comps := CairoComponents.new p.claim interaction_elements p.interaction_claim
      some ((engine comps ch p.stark_proof).mapError CairoVerificationError.Stark)

/-- Transcription of `verify_cairo`, transcribed from the source, parameterized by the
external verifying engine.  `none` models a panic: the source indexes
`stark_proof.commitments[0]`, `[1]`, `[2]` and (inside `lookup_sum_valid`)
`interaction_claim.ret[0]`, each of which panics when absent.  Steps, in
source order: absorb the claim; absorb the base commitment; draw the
interaction elements; run the logup check and reject with `InvalidLogupSum`
on failure; then `verifyAfterCheck`. -/
def verify_cairo (engine : VerifyEngine) (p : CairoProof) :
    Option (Except CairoVerificationError Unit) :=
  let ch := Channel.default
  let ch := p.claim.mix_into ch
  match p.stark_proof.commitments[0]? with
  | none => none
  | some d0 =>
    let ch := ch.mixDigest d0
    let dr := CairoInteractionElements.draw ch
    match lookup_sum_valid p.claim dr.1 p.interaction_claim with
    | none => none
    | some ok =>
      if ok then verifyAfterCheck engine p dr.1 dr.2
      else some (Except.error CairoVerificationError.InvalidLogupSum)

/-- The interaction elements the verifier draws for a proof: default channel,
absorb the claim, absorb the base-trace commitment from the proof, draw.
`none` when the proof has no base commitment. -/
def verifierDrawnElements (p : CairoProof) : Option CairoInteractionElements :=
  (p.stark_proof.commitments[0]?).map fun d0 =>
    (CairoInteractionElements.draw ((p.claim.mix_into Channel.default).mixDigest d0)).1

/-- The channel state the verifier reaches just before drawing. -/
def verifierPreDrawChannel (p : CairoProof) : Option Channel :=
  (p.stark_proof.commitments[0]?).map fun d0 =>
    (p.claim.mix_into Channel.default).mixDigest d0

/-- The component set the verifier builds for a proof. -/
def verifierComponents (p : CairoProof) : Option CairoComponents :=
  (verifierDrawnElements p).map fun es =>
    CairoComponents.new p.claim es p.interaction_claim

/-! ## The prove pipeline -/

/-- One constant-trace selector column, represented by its log-size (the
"is first" column's content is a function of its size). -/
structure ConstantColumn where
  log_size : Nat
deriving DecidableEq

/-- Transcription of `gen_is_first`: the selector column at the given log-size. -/
def gen_is_first (log_size : Nat) : ConstantColumn := ⟨log_size⟩

/-- The constant/fixed-trace columns generated by `prove_cairo`, transcribed
from the source: one `gen_is_first` column per `ret` claim at
`ret_claim.log_sizes()[2][0]`, then one each for `range_check_builtin`,
`memory_addr_to_id`, `memory_id_to_value` at their claims' constant-tree
log-sizes, then `gen_is_first(18)` for `range_check9_9`.  A pure function of
the claim; no channel value enters. -/
def proveConstantColumns (claim : CairoClaim) : List ConstantColumn :=
  (claim.ret.map fun rc => gen_is_first ((rc.log_sizes).constant.headD 0))
    ++ [gen_is_first ((claim.range_check_builtin.log_sizes).constant.headD 0),
      gen_is_first ((claim.memory_addr_to_id.log_sizes).constant.headD 0),
      gen_is_first ((claim.memory_id_to_value.log_sizes).constant.headD 0),
      gen_is_first 18]

/-- Modelled from the spec: everything `prove_cairo` obtains from external
collaborators — the public inputs extracted from the `CairoInput`, the claims
and interaction claims produced by the sub-component generators, the
commitment roots returned by the commitment scheme (the constant-tree root as
a function of the committed columns), and the external proving engine. -/
structure ProverExternals where
  public_memory : List (Nat × List Nat)
  initial_state : VmState
  final_state : VmState
  ret_claim : ret_opcode.Claim
  range_check_builtin_claim : range_check_builtin.Claim
  memory_addr_to_id_claim : addr_to_id.Claim
  memory_id_to_value_claim : id_to_f252.Claim
  range_check9_9_claim : range_check_9_9.Claim
  ret_interaction_claim : ret_opcode.InteractionClaim
  range_check_builtin_interaction_claim : range_check_builtin.InteractionClaim
  memory_addr_to_id_interaction_claim : addr_to_id.InteractionClaim
  memory_id_to_value_interaction_claim : id_to_f252.InteractionClaim
  range_check9_9_interaction_claim : range_check_9_9.InteractionClaim
  base_root : Nat
  interaction_root : Nat
  constant_root : List ConstantColumn → Nat
  engine : CairoComponents → Channel → Except ProvingError Nat

/-- The `CairoClaim` assembled by `prove_cairo` (the source builds `ret` as
the singleton `vec![ret_claim]`). -/
def proveClaim (ext : ProverExternals) : CairoClaim :=
  { public_memory := ext.public_memory
    initial_state := ext.initial_state
    final_state := ext.final_state
    ret := [ext.ret_claim]
    range_check_builtin := ext.range_check_builtin_claim
    memory_addr_to_id := ext.memory_addr_to_id_claim
    memory_id_to_value := ext.memory_id_to_value_claim
    range_check9_9 := ext.range_check9_9_claim }

/-- The `CairoInteractionClaim` assembled by `prove_cairo`. -/
def proveInteractionClaim (ext : ProverExternals) : CairoInteractionClaim :=
  { ret := [ext.ret_interaction_claim]
    range_check_builtin := ext.range_check_builtin_interaction_claim
    memory_addr_to_id := ext.memory_addr_to_id_interaction_claim
    memory_id_to_value := ext.memory_id_to_value_interaction_claim
    range_check9_9 := ext.range_check9_9_interaction_claim }

/-- The channel state the prover reaches just before drawing the interaction
elements: default channel, absorb the claim, absorb the base commitment. -/
def proverPreDrawChannel (ext : ProverExternals) : Channel :=
  ((proveClaim ext).mix_into Channel.default).mixDigest ext.base_root

/-- The interaction elements the prover draws. -/
def proverDrawnElements (ext : ProverExternals) : CairoInteractionElements :=
  (CairoInteractionElements.draw (proverPreDrawChannel ext)).1

/-- Transcription of `prove_cairo`, transcribed from the source at the orchestration level
(trace generation happens inside the external collaborators bundled in
`ext`).  Phases in source order: assemble and absorb the claim; commit the
base trace; draw the interaction elements; assemble and absorb the
interaction claim; commit the interaction trace; generate and commit the
constant columns (`proveConstantColumns`); build the component set; call the
engine, propagating its error unchanged; package the proof with the three
commitments in order.  (The source's `debug_assert!(lookup_sum_valid ..)` is
compiled out of release builds and is not part of the returned value.) -/
def prove_cairo (ext : ProverExternals) : Except ProvingError CairoProof :=
  let ch := Channel.default
  let claim := proveClaim ext
  let ch := claim.mix_into ch
  let ch := ch.mixDigest ext.base_root
  let dr := CairoInteractionElements.draw ch
  let interaction_elements := dr.1
  let ch := dr.2
  let interaction_claim := proveInteractionClaim ext
  let ch := interaction_claim.mix_into ch
  let ch := ch.mixDigest ext.interaction_root
  let constant_root := ext.constant_root (proveConstantColumns claim)
  let ch := ch.mixDigest constant_root
  let comps := CairoComponents.new claim interaction_elements interaction_claim
  (ext.engine comps ch).map fun blob =>
    { claim := claim
      interaction_claim := interaction_claim
      stark_proof :=
        { commitments := [ext.base_root, ext.interaction_root, constant_root]
          blob := blob } }

/-! ## Sub-component enumerations of `CairoClaim.mix_into` and
`CairoClaim.log_sizes`

To compare the two enumeration orders, the sub-component occurrences are
reified as tags; the grounding lemmas below prove that `mix_into` is the fold
of the per-tag absorption along `mixedSubComponents` and that `log_sizes` is
the concatenation of the per-tag sizes along `sizedSubComponents`. -/

inductive SubComp where
  | retOp (rc : ret_opcode.Claim)
  | rcBuiltin
  | memAddrToId
  | memIdToValue
  | rc99
deriving DecidableEq

/-- The sub-components absorbed by `CairoClaim.mix_into`, in source order. -/
def mixedSubComponents (c : CairoClaim) : List SubComp :=
  c.ret.map SubComp.retOp ++ [SubComp.rcBuiltin, SubComp.memAddrToId, SubComp.memIdToValue]

/-- The sub-components whose sizes `CairoClaim.log_sizes` reports, in source
order. -/
def sizedSubComponents (c : CairoClaim) : List SubComp :=
  c.ret.map SubComp.retOp ++
    [SubComp.rcBuiltin, SubComp.memAddrToId, SubComp.memIdToValue, SubComp.rc99]

/-- Absorb one tagged sub-component claim (`rc99` has no absorption anywhere
in the source's `mix_into`, so its tag leaves the channel unchanged). -/
def mixSub (c : CairoClaim) (ch : Channel) : SubComp → Channel
  | .retOp rc => rc.mix_into ch
  | .rcBuiltin => c.range_check_builtin.mix_into ch
  | .memAddrToId => c.memory_addr_to_id.mix_into ch
  | .memIdToValue => c.memory_id_to_value.mix_into ch
  | .rc99 => ch

/-- The log-sizes of one tagged sub-component. -/
def sizesSub (c : CairoClaim) : SubComp → TreeVec (List Nat)
  | .retOp rc => rc.log_sizes
  | .rcBuiltin => c.range_check_builtin.log_sizes
  | .memAddrToId => c.memory_addr_to_id.log_sizes
  | .memIdToValue => c.memory_id_to_value.log_sizes
  | .rc99 => c.range_check9_9.log_sizes

lemma mix_into_eq_foldl (c : CairoClaim) (ch : Channel) :
    c.mix_into ch = (mixedSubComponents c).foldl (mixSub c) ch := by
  simp only [CairoClaim.mix_into, mixedSubComponents, List.foldl_append, List.foldl_map]
  rfl

lemma log_sizes_eq_concat (c : CairoClaim) :
    c.log_sizes = TreeVec.concat_cols ((sizedSubComponents c).map (sizesSub c)) := by
  simp only [CairoClaim.log_sizes, sizedSubComponents, List.map_append, List.map_map]
  rfl

/-! ## Spec-side logup totals

These definitions follow the specification's words for the logup consistency
check (accumulate the public-memory inverses, then add the claimed sum of
every wired sub-component's interaction claim, each instance); they are the
comparison points for the refinement claims about `lookup_sum_valid`. -/

/-- The spec's step 1: accumulate, over every public-memory entry, the
inverse of the combined `(address, value limbs)` tuple. -/
def specPublicMemorySum (claim : CairoClaim) (elements : CairoInteractionElements) : QM31 :=
  claim.public_memory.foldl
    (fun acc av =>
      acc + (elements.memory_id_to_value_lookup.combine
        (((av.1 : Nat) : M31) :: split_f252 av.2)).finv)
    0

/-- The spec's total: public-memory contributions plus the claimed sum of
every wired sub-component's interaction claim — every `ret` instance
included. -/
def specLookupTotal (claim : CairoClaim) (elements : CairoInteractionElements)
    (ic : CairoInteractionClaim) : QM31 :=
  specPublicMemorySum claim elements
    + (ic.ret.map fun r => r.claimed_sum).sum
    + ic.range_check_builtin.claimed_sum
    + ic.memory_addr_to_id.claimed_sum
    + ic.memory_id_to_value.claimed_sum
    + ic.range_check9_9.claimed_sum

/-- The amended spec total: as `specLookupTotal` but with only the first
`ret` instance's claimed sum, which is what the source adds. -/
def specLookupTotalFirstRet (claim : CairoClaim) (elements : CairoInteractionElements)
    (ic : CairoInteractionClaim) : QM31 :=
  specPublicMemorySum claim elements
    + (ic.ret.headD ⟨0⟩).claimed_sum
    + ic.range_check_builtin.claimed_sum
    + ic.memory_addr_to_id.claimed_sum
    + ic.memory_id_to_value.claimed_sum
    + ic.range_check9_9.claimed_sum

/-! ## Claimed-sum mutations (tamper positions of the logup check) -/

/-- Add `d` to the claimed sum of the first `ret` instance (no-op when the
list is empty). -/
def withRetHeadDelta (ic : CairoInteractionClaim) (d : QM31) : CairoInteractionClaim :=
  { ic with ret := match ic.ret with
    | [] => []
    | r :: rs => ⟨r.claimed_sum + d⟩ :: rs }

/-- Add `d` to the claimed sum of the `ret` instance at position 1, leaving
the rest unchanged. -/
def withRetSecondDelta (ic : CairoInteractionClaim) (d : QM31) : CairoInteractionClaim :=
  { ic with ret := match ic.ret with
    | r0 :: r1 :: rs => r0 :: (⟨r1.claimed_sum + d⟩ : ret_opcode.InteractionClaim) :: rs
    | l => l }

/-- Add `d` to `range_check_builtin`'s claimed sum. -/
def withRcbDelta (ic : CairoInteractionClaim) (d : QM31) : CairoInteractionClaim :=
  { ic with range_check_builtin := ⟨ic.range_check_builtin.claimed_sum + d⟩ }

/-- Add `d` to `memory_addr_to_id`'s claimed sum. -/
def withA2iDelta (ic : CairoInteractionClaim) (d : QM31) : CairoInteractionClaim :=
  { ic with memory_addr_to_id := ⟨ic.memory_addr_to_id.claimed_sum + d⟩ }

/-- Add `d` to `memory_id_to_value`'s claimed sum. -/
def withI2vDelta (ic : CairoInteractionClaim) (d : QM31) : CairoInteractionClaim :=
  { ic with memory_id_to_value := ⟨ic.memory_id_to_value.claimed_sum + d⟩ }

/-- Add `d` to `range_check9_9`'s claimed sum. -/
def withRc99Delta (ic : CairoInteractionClaim) (d : QM31) : CairoInteractionClaim :=
  { ic with range_check9_9 := ⟨ic.range_check9_9.claimed_sum + d⟩ }

/-! ## General helper lemmas -/

lemma foldl_add_eq_sum {α : Type} (f : α → QM31) (l : List α) (a : QM31) :
    l.foldl (fun acc x => acc + f x) a = a + (l.map f).sum := by
  induction l generalizing a with
  | nil => simp
  | cons x xs ih => simp [ih, add_assoc]

lemma specPublicMemorySum_eq (c : CairoClaim) (e : CairoInteractionElements) :
    specPublicMemorySum c e = publicMemorySum c e := by
  simp [specPublicMemorySum, publicMemorySum, foldl_add_eq_sum]

lemma zip_take_min {α β : Type} (l₁ : List α) (l₂ : List β) :
    (l₁.take (min l₁.length l₂.length)).zip (l₂.take (min l₁.length l₂.length)) =
      l₁.zip l₂ := by
  induction l₁ generalizing l₂ with
  | nil => simp
  | cons a as ih =>
    cases l₂ with
    | nil => simp
    | cons b bs => simp [Nat.succ_min_succ, ih]

lemma allocRetComponents_length (lk : LookupElements)
    (pairs : List (ret_opcode.Claim × ret_opcode.InteractionClaim))
    (a : TraceLocationAllocator) :
    (allocRetComponents lk pairs a).1.length = pairs.length := by
  induction pairs generalizing a with
  | nil => rfl
  | cons pr rest ih => simp [allocRetComponents, ih]

lemma flatten_map_singleton {α β : Type} (f : α → β) (l : List α) :
    (l.map fun x => [f x]).flatten = l.map f := by
  induction l with
  | nil => rfl
  | cons x xs ih => simp [ih]

/-! ## Concrete fixtures used by witnesses and counterexamples -/

/-- A small concrete claim: empty public memory, one `ret` instance. -/
def claimZ : CairoClaim :=
  { public_memory := []
    initial_state := ⟨0, 0, 0⟩
    final_state := ⟨1, 2, 3⟩
    ret := [⟨4⟩]
    range_check_builtin := ⟨5⟩
    memory_addr_to_id := ⟨6⟩
    memory_id_to_value := ⟨7⟩
    range_check9_9 := ⟨⟩ }

/-- Arbitrary concrete relation elements. -/
def elemsZ : CairoInteractionElements :=
  ⟨⟨0, 1⟩, ⟨0, 1⟩, ⟨0, 1⟩⟩

/-- An interaction claim whose claimed sums are all zero: the logup check
accepts it together with `claimZ` (empty public memory). -/
def icZ : CairoInteractionClaim :=
  { ret := [⟨0⟩]
    range_check_builtin := ⟨0⟩
    memory_addr_to_id := ⟨0⟩
    memory_id_to_value := ⟨0⟩
    range_check9_9 := ⟨0⟩ }

/-- As `icZ` but with a second all-zero `ret` instance. -/
def icZ2 : CairoInteractionClaim :=
  { icZ with ret := [⟨0⟩, ⟨0⟩] }

/-- A verifying engine that always accepts. -/
def engineAcceptV : VerifyEngine := fun _ _ _ => Except.ok ()

/-- A verifying engine that always rejects with a wrapped STARK error. -/
def engineRejectV : VerifyEngine := fun _ _ _ => Except.error ⟨7⟩

/-- Concrete prover externals: the fixture claims, commitment roots 101, 102,
a constant root independent of the columns, and an engine that succeeds. -/
def extZ : ProverExternals :=
  { public_memory := []
    initial_state := ⟨0, 0, 0⟩
    final_state := ⟨1, 2, 3⟩
    ret_claim := ⟨4⟩
    range_check_builtin_claim := ⟨5⟩
    memory_addr_to_id_claim := ⟨6⟩
    memory_id_to_value_claim := ⟨7⟩
    range_check9_9_claim := ⟨⟩
    ret_interaction_claim := ⟨0⟩
    range_check_builtin_interaction_claim := ⟨0⟩
    memory_addr_to_id_interaction_claim := ⟨0⟩
    memory_id_to_value_interaction_claim := ⟨0⟩
    range_check9_9_interaction_claim := ⟨0⟩
    base_root := 101
    interaction_root := 102
    constant_root := fun _ => 103
    engine := fun _ _ => Except.ok 0 }

/-- The proof `prove_cairo extZ` produces. -/
def proofZ : CairoProof :=
  { claim := proveClaim extZ
    interaction_claim := proveInteractionClaim extZ
    stark_proof := { commitments := [101, 102, 103], blob := 0 } }

/-- An interaction claim with two `ret` instances, the second with a nonzero
claimed sum; all other sums zero. -/
def icCex : CairoInteractionClaim :=
  { icZ with ret := [⟨0⟩, ⟨1⟩] }

/-- Claim C1 (counterexample): at `(claimZ, elemsZ, icCex)` the source's
`lookup_sum_valid` returns `true`, yet the spec's total — which includes the
claimed sum of every `ret` instance — is nonzero: the source only adds
`interaction_claim.ret[0]` and ignores the second `ret` instance. -/
theorem C1_lookup_sum_cex :
    lookup_sum_valid claimZ elemsZ icCex = some true ∧
    specLookupTotal claimZ elemsZ icCex ≠ 0 := by
  decide

/-- Claim C1 (amended): whenever the interaction claim's `ret` list is
nonempty (otherwise the source panics), `lookup_sum_valid` returns `true` iff
the sum of the public-memory inverses and the claimed sums of the wired
sub-components — with only the FIRST `ret` instance's claimed sum, further
`ret` instances being ignored — is zero in the extension field. -/
theorem C1_lookup_sum_first_ret (c : CairoClaim) (e : CairoInteractionElements)
    (ic : CairoInteractionClaim) (h : ic.ret ≠ []) :
    lookup_sum_valid c e ic = some true ↔ specLookupTotalFirstRet c e ic = 0 := by
  cases hret : ic.ret with
  | nil => exact absurd hret h
  | cons r rs =>
    have hsum : lookup_sum c e ic = some (specLookupTotalFirstRet c e ic) := by
      simp only [lookup_sum, hret, specLookupTotalFirstRet, specPublicMemorySum_eq,
        List.headD_cons]
      congr 1
      abel
    simp [lookup_sum_valid, hsum]

/-- Witness for C1: the amended equivalence evaluated at the concrete
accepting fixture. -/
theorem C1_lookup_sum_first_ret_witness :
    lookup_sum_valid claimZ elemsZ icZ = some true ↔
      specLookupTotalFirstRet claimZ elemsZ icZ = 0 :=
  C1_lookup_sum_first_ret claimZ elemsZ icZ (by decide)

/-- Claim C8 (counterexample): `(claimZ, elemsZ, icZ2)` passes the logup
check, and bumping the claimed sum of the SECOND `ret` instance by the
nonzero delta `1` still passes: mutating a `ret` instance other than the
first does not flip `lookup_sum_valid` to `false`. -/
theorem C8_second_ret_mutation_cex :
    lookup_sum_valid claimZ elemsZ icZ2 = some true ∧
    lookup_sum_valid claimZ elemsZ (withRetSecondDelta icZ2 1) = some true ∧
    (1 : QM31) ≠ 0 := by
  decide

/-- Claim C8 (amended): on any triple accepted by `lookup_sum_valid`, adding
a nonzero delta to the claimed sum of the first `ret` instance, of
`range_check_builtin`, of `memory_addr_to_id`, of `memory_id_to_value`, or of
`range_check9_9` makes `lookup_sum_valid` return `false`; `ret` instances
beyond the first are not part of the accumulated total (see the
counterexample). -/
theorem C8_nonzero_delta_invalidates (c : CairoClaim) (e : CairoInteractionElements)
    (ic : CairoInteractionClaim) (d : QM31) (hd : d ≠ 0)
    (hv : lookup_sum_valid c e ic = some true) :
    lookup_sum_valid c e (withRetHeadDelta ic d) = some false ∧
    lookup_sum_valid c e (withRcbDelta ic d) = some false ∧
    lookup_sum_valid c e (withA2iDelta ic d) = some false ∧
    lookup_sum_valid c e (withI2vDelta ic d) = some false ∧
    lookup_sum_valid c e (withRc99Delta ic d) = some false := by
  obtain ⟨retl, rcb, a2i, i2v, r99⟩ := ic
  cases retl with
  | nil => simp [lookup_sum_valid, lookup_sum] at hv
  | cons r rs =>
    simp only [lookup_sum_valid, lookup_sum, Option.map_some', Option.some.injEq,
      decide_eq_true_eq] at hv
    refine ⟨?_, ?_, ?_, ?_, ?_⟩ <;>
    · simp only [lookup_sum_valid, lookup_sum, withRetHeadDelta, withRcbDelta,
        withA2iDelta, withI2vDelta, withRc99Delta, Option.map_some', Option.some.injEq]
      rw [decide_eq_false_iff_not]
      intro h0
      apply hd
      have h2 : (publicMemorySum c e + r99.claimed_sum + r.claimed_sum
          + rcb.claimed_sum + a2i.claimed_sum + i2v.claimed_sum) + d = 0 := by
        rw [← h0]; abel
      calc d = ((publicMemorySum c e + r99.claimed_sum + r.claimed_sum
            + rcb.claimed_sum + a2i.claimed_sum + i2v.claimed_sum) + d)
          - (publicMemorySum c e + r99.claimed_sum + r.claimed_sum
            + rcb.claimed_sum + a2i.claimed_sum + i2v.claimed_sum) := by abel
        _ = 0 - 0 := by rw [h2, hv]
        _ = 0 := by abel

/-- Witness for C8: the amended tamper-sensitivity statement evaluated at the
accepting fixture with delta `1`. -/
theorem C8_nonzero_delta_invalidates_witness :
    lookup_sum_valid claimZ elemsZ (withRetHeadDelta icZ 1) = some false ∧
    lookup_sum_valid claimZ elemsZ (withRcbDelta icZ 1) = some false ∧
    lookup_sum_valid claimZ elemsZ (withA2iDelta icZ 1) = some false ∧
    lookup_sum_valid claimZ elemsZ (withI2vDelta icZ 1) = some false ∧
    lookup_sum_valid claimZ elemsZ (withRc99Delta icZ 1) = some false :=
  C8_nonzero_delta_invalidates claimZ elemsZ icZ 1 (by decide) (by decide)

/-- Claim C2 (counterexample): at the concrete claim `claimZ`,
`range_check9_9` is among the sub-components whose sizes `log_sizes` reports
(five components, five constant-tree columns) but is NOT among the
sub-components `mix_into` absorbs (four absorbed messages): the two
operations do not enumerate the same sub-components. -/
theorem C2_enumeration_cex :
    SubComp.rc99 ∈ sizedSubComponents claimZ ∧
    SubComp.rc99 ∉ mixedSubComponents claimZ ∧
    sizedSubComponents claimZ ≠ mixedSubComponents claimZ ∧
    (CairoClaim.mix_into claimZ Channel.default).absorbed.length = 4 ∧
    ((CairoClaim.log_sizes claimZ).constant).length = 5 := by
  decide

/-- Claim C2 (amended): `mix_into` and `log_sizes` enumerate the shared
sub-components — the `ret` instances, `range_check_builtin`,
`memory_addr_to_id`, `memory_id_to_value` — identically and in the same fixed
order, but `log_sizes` additionally reports `range_check9_9` (last), which
`mix_into` never absorbs: the `log_sizes` enumeration is the `mix_into`
enumeration extended by `range_check9_9`. -/
theorem C2_enumeration_order (c : CairoClaim) (ch : Channel) :
    c.mix_into ch = (mixedSubComponents c).foldl (mixSub c) ch ∧
    c.log_sizes = TreeVec.concat_cols ((sizedSubComponents c).map (sizesSub c)) ∧
    sizedSubComponents c = mixedSubComponents c ++ [SubComp.rc99] := by
  refine ⟨mix_into_eq_foldl c ch, log_sizes_eq_concat c, ?_⟩
  simp [sizedSubComponents, mixedSubComponents]

/-- A claim that differs from `claimZ` only in its public-input fields
(public memory and boundary VM states). -/
def claimZpub : CairoClaim :=
  { claimZ with
    public_memory := [(9, [1, 2, 3, 4, 5, 6, 7, 8])]
    initial_state := ⟨10, 11, 12⟩
    final_state := ⟨13, 14, 15⟩ }

/-- Claim C6: two claims agreeing on all sub-component claim fields have
identical `mix_into` transcripts from any common starting state — the
public-input fields (public memory, initial and final VM states) are not
absorbed by this layer. -/
theorem C6_public_inputs_not_mixed (c1 c2 : CairoClaim) (ch : Channel)
    (h1 : c1.ret = c2.ret)
    (h2 : c1.range_check_builtin = c2.range_check_builtin)
    (h3 : c1.memory_addr_to_id = c2.memory_addr_to_id)
    (h4 : c1.memory_id_to_value = c2.memory_id_to_value)
    (h5 : c1.range_check9_9 = c2.range_check9_9) :
    CairoClaim.mix_into c1 ch = CairoClaim.mix_into c2 ch := by
  obtain ⟨pm1, is1, fs1, retl1, rcb1, a1, i1, r1⟩ := c1
  obtain ⟨pm2, is2, fs2, retl2, rcb2, a2, i2, r2⟩ := c2
  simp only at h1 h2 h3 h4
  subst h1; subst h2; subst h3; subst h4
  rfl

/-- Witness for C6: `claimZ` and `claimZpub` differ only in their
public-input fields, and their `mix_into` transcripts coincide. -/
theorem C6_public_inputs_not_mixed_witness :
    CairoClaim.mix_into claimZ Channel.default =
      CairoClaim.mix_into claimZpub Channel.default :=
  C6_public_inputs_not_mixed claimZ claimZpub Channel.default rfl rfl rfl rfl rfl

/-- Claim C9: the constant/fixed-trace selector columns generated by the
prover (`proveConstantColumns`, a pure function of the claim — no channel
value enters its type or definition) have exactly the log-sizes of the
claim's reported constant-tree column sizes `claim.log_sizes()[2]`, entry by
entry and in order — including `range_check9_9`'s selector, whose hard-coded
log-size 18 equals the fixed size the `range_check_9_9` claim reports. -/
theorem C9_constant_trace_sizes (c : CairoClaim) :
    (proveConstantColumns c).map ConstantColumn.log_size =
      (CairoClaim.log_sizes c).constant := by
  obtain ⟨pm, is, fs, retl, rcb, a2i, i2v, r99⟩ := c
  induction retl with
  | nil => rfl
  | cons r rs ih => exact congrArg (List.cons r.log_size) ih

/-- Claim C10: `CairoComponents.new` is total on mismatched `ret` lists: it
builds exactly `min |claim.ret| |interaction_claim.ret|` ret components (the
zipped prefix) and its result is unchanged when both `ret` lists are
truncated to that common prefix — the unpaired entries of the longer list are
silently ignored. -/
theorem C10_components_zip_truncates (c : CairoClaim) (e : CairoInteractionElements)
    (ic : CairoInteractionClaim) :
    (CairoComponents.new c e ic).ret.length = min c.ret.length ic.ret.length ∧
    CairoComponents.new c e ic =
      CairoComponents.new
        { c with ret := c.ret.take (min c.ret.length ic.ret.length) } e
        { ic with ret := ic.ret.take (min c.ret.length ic.ret.length) } := by
  constructor
  · simp [CairoComponents.new, allocRetComponents_length, List.length_zip]
  · simp only [CairoComponents.new]
    rw [zip_take_min]

lemma verifyAfterCheck_ne_invalid (e' : VerifyEngine) (p : CairoProof)
    (es : CairoInteractionElements) (ch : Channel) :
    verifyAfterCheck e' p es ch ≠ some (Except.error CairoVerificationError.InvalidLogupSum) := by
  simp only [verifyAfterCheck]
  cases h1 : p.stark_proof.commitments[1]? with
  | none => simp
  | some d1 =>
    cases h2 : p.stark_proof.commitments[2]? with
    | none => simp
    | some d2 =>
      cases he : e' (CairoComponents.new p.claim es p.interaction_claim)
          (((p.interaction_claim.mix_into ch).mixDigest d1).mixDigest d2) p.stark_proof with
      | ok u => simp [he, Except.mapError]
      | error er => simp [he, Except.mapError]

/-- An interaction claim whose total is nonzero: the logup check rejects it
(together with `claimZ`). -/
def icBad : CairoInteractionClaim :=
  { icZ with ret := [⟨1⟩] }

/-- A proof the logup check rejects. -/
def proofBad : CairoProof :=
  { claim := claimZ
    interaction_claim := icBad
    stark_proof := { commitments := [101, 102, 103], blob := 0 } }

/-- Claim C3: `verify_cairo` returns `InvalidLogupSum` exactly when
`lookup_sum_valid`, applied to the proof's claim, the elements drawn from the
verifier's transcript, and the proof's interaction claim, returns `false`;
and in that case the result does not depend on the external STARK engine —
the proof is rejected without invoking it. -/
theorem C3_invalid_logup_sum_iff (eng eng2 : VerifyEngine) (p : CairoProof) :
    (verify_cairo eng p = some (Except.error CairoVerificationError.InvalidLogupSum) ↔
      ∃ es, verifierDrawnElements p = some es ∧
        lookup_sum_valid p.claim es p.interaction_claim = some false) ∧
    (verify_cairo eng p = some (Except.error CairoVerificationError.InvalidLogupSum) →
      verify_cairo eng p = verify_cairo eng2 p) := by
  cases h0 : p.stark_proof.commitments[0]? with
  | none =>
    have hv : ∀ e' : VerifyEngine, verify_cairo e' p = none := fun e' => by
      simp [verify_cairo, h0]
    refine ⟨⟨fun h => ?_, fun h => ?_⟩, fun h => ?_⟩
    · rw [hv eng] at h; exact Option.noConfusion h
    · obtain ⟨es, hes, _⟩ := h
      simp [verifierDrawnElements, h0] at hes
    · rw [hv eng, hv eng2]
  | some d0 =>
    have hes : verifierDrawnElements p =
        some ((CairoInteractionElements.draw
          ((p.claim.mix_into Channel.default).mixDigest d0)).1) := by
      simp [verifierDrawnElements, h0]
    cases hls : lookup_sum_valid p.claim
        ((CairoInteractionElements.draw
          ((p.claim.mix_into Channel.default).mixDigest d0)).1)
        p.interaction_claim with
    | none =>
      have hv : ∀ e' : VerifyEngine, verify_cairo e' p = none := fun e' => by
        simp [verify_cairo, h0, hls]
      refine ⟨⟨fun h => ?_, fun h => ?_⟩, fun h => ?_⟩
      · rw [hv eng] at h; exact Option.noConfusion h
      · obtain ⟨es, hes2, hf⟩ := h
        rw [hes] at hes2
        injection hes2 with he
        rw [← he] at hf
        rw [hls] at hf
        exact Option.noConfusion hf
      · rw [hv eng, hv eng2]
    | some ok =>
      cases ok with
      | false =>
        have hv : ∀ e' : VerifyEngine,
            verify_cairo e' p = some (Except.error CairoVerificationError.InvalidLogupSum) :=
          fun e' => by simp [verify_cairo, h0, hls]
        exact ⟨⟨fun _ => ⟨_, hes, hls⟩, fun _ => hv eng⟩, fun _ => by rw [hv eng, hv eng2]⟩
      | true =>
        have hv : ∀ e' : VerifyEngine, verify_cairo e' p =
            verifyAfterCheck e' p
              ((CairoInteractionElements.draw
                ((p.claim.mix_into Channel.default).mixDigest d0)).1)
              ((CairoInteractionElements.draw
                ((p.claim.mix_into Channel.default).mixDigest d0)).2) :=
          fun e' => by simp [verify_cairo, h0, hls]
        refine ⟨⟨fun h => ?_, fun h => ?_⟩, fun h => ?_⟩
        · rw [hv eng] at h
          exact absurd h (verifyAfterCheck_ne_invalid eng p _ _)
        · obtain ⟨es, hes2, hf⟩ := h
          rw [hes] at hes2
          injection hes2 with he
          rw [← he] at hf
          rw [hls] at hf
          injection hf with hb
          exact Bool.noConfusion hb
        · rw [hv eng] at h
          exact absurd h (verifyAfterCheck_ne_invalid eng p _ _)

/-- Witness for C3: on a concrete proof failing the logup check, the
verifier's result is the same under an accepting and under a rejecting
engine — the engine is never consulted. -/
theorem C3_invalid_logup_sum_iff_witness :
    verify_cairo engineAcceptV proofBad = verify_cairo engineRejectV proofBad :=
  (C3_invalid_logup_sum_iff engineAcceptV engineRejectV proofBad).2 (by rfl)

/-- An interaction claim with an empty `ret` list. -/
def icEmptyRet : CairoInteractionClaim :=
  { icZ with ret := [] }

/-- A well-typed proof with an empty `ret` list in the interaction claim. -/
def proofNoRet : CairoProof :=
  { claim := claimZ
    interaction_claim := icEmptyRet
    stark_proof := { commitments := [101, 102, 103], blob := 0 } }

/-- A well-typed proof whose STARK proof has fewer than three commitments. -/
def proofShort : CairoProof :=
  { claim := claimZ
    interaction_claim := icZ
    stark_proof := { commitments := [101], blob := 0 } }

/-- Claim C4 (counterexample): `verify_cairo` is not total on well-typed
proofs — on a proof with an empty interaction-claim `ret` list it panics
(`interaction_claim.ret[0]` in `lookup_sum_valid`), and on a proof with
fewer than three commitments it panics (`stark_proof.commitments[1]`),
modelled as `none`, instead of returning success or a typed error. -/
theorem C4_panics_cex :
    verify_cairo engineAcceptV proofNoRet = none ∧
    verify_cairo engineAcceptV proofShort = none := by
  constructor
  · rfl
  · rfl

/-- Claim C4 (amended): `verify_cairo` terminates and returns success or a
typed `CairoVerificationError` — never a panic — provided the proof's
interaction claim has a nonempty `ret` list and its STARK proof carries at
least the three commitments this layer reads; outside those bounds the
source indexes out of range (see the counterexample). -/
theorem C4_total_on_indexable (eng : VerifyEngine) (p : CairoProof)
    (h1 : p.interaction_claim.ret ≠ [])
    (h2 : 3 ≤ p.stark_proof.commitments.length) :
    (verify_cairo eng p).isSome = true := by
  rcases hl : p.stark_proof.commitments with _ | ⟨a, _ | ⟨b, _ | ⟨cc, rest⟩⟩⟩
  · rw [hl] at h2; simp at h2
  · rw [hl] at h2; simp at h2
  · rw [hl] at h2; simp at h2
  · cases hr : p.interaction_claim.ret with
    | nil => exact absurd hr h1
    | cons r rs =>
      have h0 : p.stark_proof.commitments[0]? = some a := by rw [hl]; simp
      have hd1 : p.stark_proof.commitments[1]? = some b := by rw [hl]; simp
      have hd2 : p.stark_proof.commitments[2]? = some cc := by rw [hl]; simp
      have hne : lookup_sum_valid p.claim
          ((CairoInteractionElements.draw
            ((p.claim.mix_into Channel.default).mixDigest a)).1)
          p.interaction_claim ≠ none := by
        simp [lookup_sum_valid, lookup_sum, hr]
      cases hls : lookup_sum_valid p.claim
          ((CairoInteractionElements.draw
            ((p.claim.mix_into Channel.default).mixDigest a)).1)
          p.interaction_claim with
      | none => exact absurd hls hne
      | some bv =>
        cases bv with
        | false => simp [verify_cairo, h0, hls]
        | true => simp [verify_cairo, verifyAfterCheck, h0, hls, hd1, hd2]

/-- Witness for C4: the amended totality statement evaluated on the concrete
well-formed proof. -/
theorem C4_total_on_indexable_witness :
    (verify_cairo engineAcceptV proofZ).isSome = true :=
  C4_total_on_indexable engineAcceptV proofZ (by decide) (by decide)

lemma except_map_eq_ok {ε α β : Type} (f : α → β) (x : Except ε α) (b : β)
    (h : x.map f = Except.ok b) : ∃ a, x = Except.ok a ∧ b = f a := by
  cases x with
  | error e => simp [Except.map] at h
  | ok a =>
    simp [Except.map] at h
    exact ⟨a, rfl, h.symm⟩

/-- Claim C5: for every proof `prove_cairo` produces, the verifier's replay —
default channel, absorb the claim via `mix_into`, absorb the base-trace
commitment taken from the proof — reaches exactly the channel state the
prover had before drawing, and therefore `CairoInteractionElements.draw`
yields for the verifier exactly the elements the prover drew and used. -/
theorem C5_transcript_replay (ext : ProverExternals) (p : CairoProof)
    (h : prove_cairo ext = Except.ok p) :
    verifierPreDrawChannel p = some (proverPreDrawChannel ext) ∧
    verifierDrawnElements p = some (proverDrawnElements ext) := by
  simp only [prove_cairo] at h
  obtain ⟨blob, hE, hp⟩ := except_map_eq_ok _ _ _ h
  subst hp
  constructor
  · simp [verifierPreDrawChannel, proverPreDrawChannel]
  · simp [verifierDrawnElements, proverDrawnElements, proverPreDrawChannel]

/-- Witness for C5: the transcript replay equalities on the concrete proof
produced from `extZ`. -/
theorem C5_transcript_replay_witness :
    verifierPreDrawChannel proofZ = some (proverPreDrawChannel extZ) ∧
    verifierDrawnElements proofZ = some (proverDrawnElements extZ) :=
  C5_transcript_replay extZ proofZ (by rfl)

/-- Claim C7: `CairoComponents.new` is a pure function of its three inputs
(in this embedding it takes nothing else, and starts from the fresh default
allocator), so the component set the verifier rebuilds from a proof produced
by `prove_cairo` — offsets allocated by the shared `TraceLocationAllocator`
included — is exactly the component set the prover built from its own claim,
drawn elements, and interaction claim. -/
theorem C7_components_rebuilt_identically (ext : ProverExternals) (p : CairoProof)
    (h : prove_cairo ext = Except.ok p) :
    verifierComponents p =
      some (CairoComponents.new (proveClaim ext) (proverDrawnElements ext)
        (proveInteractionClaim ext)) := by
  simp only [prove_cairo] at h
  obtain ⟨blob, hE, hp⟩ := except_map_eq_ok _ _ _ h
  subst hp
  simp [verifierComponents, verifierDrawnElements, proverDrawnElements, proverPreDrawChannel]

/-- Witness for C7: the prover/verifier component sets coincide on the
concrete proof produced from `extZ`. -/
theorem C7_components_rebuilt_identically_witness :
    verifierComponents proofZ =
      some (CairoComponents.new (proveClaim extZ) (proverDrawnElements extZ)
        (proveInteractionClaim extZ)) :=
  C7_components_rebuilt_identically extZ proofZ (by rfl)
